import Mathlib

/-!
Verification of the homework-status bot (`hw_status_bot.py`).

The development shallowly embeds the bot's source: Python dictionaries and
JSON values become the `Json` / `JList` / `JObj` types below, the HTTP
transport and the chat-delivery collaborators become explicit input data
(`HttpResult`, `DeliveryOutcome`), Python exceptions become the `BotError`
sum returned through `Except`, and the module-level mutable globals
(`current_hw_id`, `last_message`, `last_message_hw_id`) become the
`Globals` record threaded through the loop.  Observable side effects
(log lines, chat sends, the inter-cycle sleep) are recorded as `Event`
traces.  String renderings of nested containers and Python `repr` quoting
are elided in log text (they never matter for the properties below); all
other message text follows the source constants verbatim.
-/

/- JSON-like dynamic values, as produced by `response.json()`.  `JList`
and `JObj` are the list and dictionary layers, kept as separate mutual
inductives so that decidable equality can be derived. -/
mutual

inductive Json where
  | null
  | bool (b : Bool)
  | num (n : Int)
  | str (s : String)
  | arr (xs : JList)
  | obj (kvs : JObj)
deriving DecidableEq, Repr

inductive JList where
  | nil
  | cons (hd : Json) (tl : JList)
deriving DecidableEq, Repr

inductive JObj where
  | nil
  | cons (key : String) (val : Json) (tl : JObj)
deriving DecidableEq, Repr

end

/-- Dictionary lookup: `key in d` / `d[key]` on a Python dict (first match;
Python dicts have unique keys). -/
def JObj.lookup : JObj → String → Option Json
  | .nil, _ => none
  | .cons k v t, key => if k = key then some v else JObj.lookup t key

/-- Association-list lookup for string-valued tables (`VERDICTS`). -/
def lookupS : List (String × String) → String → Option String
  | [], _ => none
  | (k, v) :: t, key => if k = key then some v else lookupS t key

/-- Shallow string rendering of a value, as interpolated into log
messages; container internals and `repr` quoting are elided. -/
def jsonText : Json → String
  | .null => "None"
  | .bool true => "True"
  | .bool false => "False"
  | .num n => toString n
  | .str s => s
  | .arr _ => "[...]"
  | .obj _ => "\x7b...\x7d"

/-- `VARIABLE_NAMES` from the source: the required environment variables,
in the fixed order API token, bot token, chat id. -/
def VARIABLE_NAMES : List String := ["PRACTICUM_TOKEN", "AWESOM_O_TOKEN", "MY_CHAT_ID"]

/-- `ENDPOINT` from the source. -/
def ENDPOINT : String := "https://practicum.yandex.ru/api/user_api/homework_statuses/"

/-- `RETRY_TIME` from the source: the fixed inter-cycle sleep in seconds. -/
def RETRY_TIME : Nat := 600

/-- `VERDICTS` from the source: the static mapping of the three known
status codes to human-readable sentences. -/
def VERDICTS : List (String × String) :=
  [("approved", "Работа проверена: ревьюеру всё понравилось. Ура!"),
   ("rejected", "Работа проверена: у ревьюера есть замечания."),
   ("reviewing", "Работа взята на проверку ревьюером.")]

/-- `BOT_LAUNCH_STOPPED` from the source. -/
def BOT_LAUNCH_STOPPED : String := "Запуск бота остановлен."

/-- `INVALID_DATA_TYPE` from the source. -/
def INVALID_DATA_TYPE : String := "Домашние работы не в виде списка."

/-- `MISSING_REQUIRED_KEY` from the source. -/
def MISSING_REQUIRED_KEY : String := "В ответе от API-сервиса отсутствует необходимый ключ."

/-- `STATUSES_NOT_CHANGED` from the source. -/
def STATUSES_NOT_CHANGED : String := "Статусы домашних работ не изменились."

/-- The attention-prefix message sent before every notification. -/
def ATTENTION_MESSAGE : String := "Внимание ⚠️ Поступила важная информация 📨"

/-- `MISSED_VARIABLES.format(missed)` from the source (list quoting elided). -/
def MISSED_VARIABLES_msg (names : List String) : String :=
  "Отсутствуют обязательные переменные окружения: [" ++ String.intercalate ", " names
    ++ "]. Программа принудительно остановлена."

/-- `ERROR_FOUND.format(error)` from the source. -/
def ERROR_FOUND_msg (err : String) : String :=
  "Ошибка в работе программы: " ++ err ++ "."

/-- `MESSAGE_SENDING_FAILED.format(error)` from the source. -/
def MESSAGE_SENDING_FAILED_msg (err : String) : String :=
  "Сбой при отправке сообщения в Telegram: " ++ err ++ "."

/-- `MESSAGE_SENT.format(message)` from the source. -/
def MESSAGE_SENT_msg (m : String) : String :=
  "Сообщение \"" ++ m ++ "\" отправлено в Телеграм."

/-- `STATUS_CHANGED.format(name, verdict)` from the source. -/
def STATUS_CHANGED_msg (name verdict : String) : String :=
  "Изменился статус проверки работы \"" ++ name ++ "\". " ++ verdict

/-- `UNEXPECTED_STATUS.format(status)` from the source. -/
def UNEXPECTED_STATUS_msg (status : String) : String :=
  "Неожиданный статус домашней работы: " ++ status ++ "."

/-- The three environment variables read by `os.getenv`; `none` models an
absent variable. -/
structure Env where
  practicum_token : Option String
  my_chat_id : Option String
  awesom_o_token : Option String
deriving DecidableEq, Repr

/-- `globals()[name]` restricted to the three credential slots. -/
def Env.getVar (e : Env) (name : String) : Option String :=
  if name = "PRACTICUM_TOKEN" then e.practicum_token
  else if name = "AWESOM_O_TOKEN" then e.awesom_o_token
  else if name = "MY_CHAT_ID" then e.my_chat_id
  else none

/-- Observable side effects of the bot: log lines at the four levels used
by the source, calls to `bot.send_message`, and `time.sleep`. -/
inductive Event where
  | logDebug (msg : String)
  | logInfo (msg : String)
  | logError (msg : String)
  | logCritical (msg : String)
  | chatSend (chat : Option String) (msg : String)
  | sleep (seconds : Nat)
deriving DecidableEq, Repr

/-- The list of missing variable names computed inside `check_tokens`:
`[name for name in VARIABLE_NAMES if globals()[name] is None]`. -/
def missedVariables (e : Env) : List String :=
  VARIABLE_NAMES.filter (fun n => (Env.getVar e n).isNone)

/-- `check_tokens` from the source: returns `not missed` and logs one
critical line naming the missing variables when any are missing. -/
def check_tokens (e : Env) : Bool × List Event :=
  let missed := missedVariables e
  (missed.isEmpty,
   if missed.isEmpty then [] else [Event.logCritical (MISSED_VARIABLES_msg missed)])

/-- The `request_params` dictionary built inside `get_api_answer`. -/
structure RequestParams where
  url : String
  headers : List (String × String)
  params : List (String × Json)
deriving DecidableEq, Repr

/-- `str` applied to an optional value (an absent token renders as `None`
inside the f-string building `HEADERS`). -/
def pyOptText : Option String → String
  | some s => s
  | none => "None"

/-- `HEADERS` from the source, as a function of the API token. -/
def HEADERS (token : Option String) : List (String × String) :=
  [("Authorization", "OAuth " ++ pyOptText token)]

/-- The concrete `request_params` value for one API call. -/
def request_params (token : Option String) (timestamp : Json) : RequestParams :=
  ⟨ENDPOINT, HEADERS token, [("from_date", timestamp)]⟩

/-- Python exceptions raised by the bot, with their payloads.
`connectionError` is the `ConnectionError` raised on transport failure
(the spec's ServiceUnreachable), `badResponse` is `BadResponseError`,
`denialOfService` is `DenialOfServiceError`, `valueError` is the
`ValueError` for an unknown status (the spec's UnknownStatus), and
`missingVariable` is `MissingVariableError`. -/
inductive BotError where
  | connectionError (err : String) (params : RequestParams)
  | badResponse (statusCode : Nat) (params : RequestParams)
  | denialOfService (key : String) (value : Json) (params : RequestParams)
  | keyError (msg : String)
  | typeError (msg : String)
  | valueError (statusValue : Json)
  | attributeError (msg : String)
  | missingVariable (msg : String)
deriving DecidableEq, Repr

/-- Rendering of a `RequestParams` value as interpolated into error text. -/
def rpText (rp : RequestParams) : String :=
  rp.url ++ ", \x7b"
    ++ String.intercalate ", " (rp.headers.map (fun p => p.1 ++ ": " ++ p.2))
    ++ "\x7d, \x7b"
    ++ String.intercalate ", " (rp.params.map (fun p => p.1 ++ ": " ++ jsonText p.2))
    ++ "\x7d"

/-- `str(exception)` for each `BotError`: the message each exception was
constructed with in the source. -/
def errText : BotError → String
  | .connectionError err rp =>
      "API-сервис не отвечает: " ++ err ++ ". Параметры запроса: " ++ rpText rp ++ "."
  | .badResponse status rp =>
      "Код ответа API: " ++ toString status ++ ". Параметры запроса: " ++ rpText rp ++ "."
  | .denialOfService key v rp =>
      "Отказ от обслуживания. Ключ: " ++ key ++ ". Ошибка: " ++ jsonText v
        ++ ". Параметры запроса: " ++ rpText rp ++ "."
  | .keyError m => m
  | .typeError m => m
  | .valueError status => UNEXPECTED_STATUS_msg (jsonText status)
  | .attributeError m => m
  | .missingVariable m => m

/-- Outcome of one call to the HTTP transport collaborator
(`requests.get`): either a `RequestException`, or a response with a
status code and a parsed dictionary body. -/
inductive HttpResult where
  | transportError (err : String)
  | response (statusCode : Nat) (body : JObj)
deriving DecidableEq, Repr

/-- `get_api_answer` from the source: classifies one transport outcome as
a transport failure, a non-200 status, a service-reported denial (keys
tried in the fixed order `error` then `code`), or a success returning the
parsed body unchanged. -/
def get_api_answer (token : Option String) (timestamp : Json) (http : HttpResult) :
    Except BotError JObj :=
  let rp := request_params token timestamp
  match http with
  | .transportError err => .error (.connectionError err rp)
  | .response status body =>
    if status ≠ 200 then .error (.badResponse status rp)
    else
      match JObj.lookup body "error" with
      | some v => .error (.denialOfService "error" v rp)
      | none =>
        match JObj.lookup body "code" with
        | some v => .error (.denialOfService "code" v rp)
        | none => .ok body

/-- `check_response` from the source: `response['homeworks']` re-raised as
`KeyError(MISSING_REQUIRED_KEY)` when the key is absent, `TypeError` when
the value is not a list (raised inside the `try` but not caught by the
`except KeyError` clause), and otherwise the list returned as-is. -/
def check_response (body : JObj) : Except BotError JList :=
  match JObj.lookup body "homeworks" with
  | none => .error (.keyError MISSING_REQUIRED_KEY)
  | some j =>
    match j with
    | .arr xs => .ok xs
    | _ => .error (.typeError INVALID_DATA_TYPE)

/-- Python `value[key]` on a dynamic value: `KeyError` when the key is
absent, `TypeError` when the value is not a dictionary. -/
def pyGetItem (j : Json) (key : String) : Except BotError Json :=
  match j with
  | .obj kvs =>
    match JObj.lookup kvs key with
    | some v => .ok v
    | none => .error (.keyError key)
  | _ => .error (.typeError ("object is not subscriptable"))

/-- Python `value.get(key)` on a dynamic value: `AttributeError` when the
value is not a dictionary, otherwise the optional lookup. -/
def pyGet (j : Json) (key : String) : Except BotError (Option Json) :=
  match j with
  | .obj kvs => .ok (JObj.lookup kvs key)
  | _ => .error (.attributeError ("object has no attribute get"))

/-- Membership of a status value in the keys of `VERDICTS`
(`homework_status not in VERDICTS`): only the three known string codes
match, and the matching verdict sentence is returned. -/
def verdictOf : Json → Option String
  | .str s => lookupS VERDICTS s
  | _ => none

/-- `parse_status` from the source: reads `homework['status']`, rejects a
status outside `VERDICTS` with `ValueError`, and otherwise builds the
`STATUS_CHANGED` template from `homework['homework_name']` and the mapped
verdict sentence. -/
def parse_status (homework : Json) : Except BotError String :=
  match pyGetItem homework "status" with
  | .error e => .error e
  | .ok status =>
    match verdictOf status with
    | none => .error (.valueError status)
    | some verdict =>
      match pyGetItem homework "homework_name" with
      | .error e => .error e
      | .ok name => .ok (STATUS_CHANGED_msg (jsonText name) verdict)

/-- The module-level mutable globals of the source. -/
structure Globals where
  current_hw_id : Option Json
  last_message : Option String
  last_message_hw_id : Option Json
deriving DecidableEq, Repr

/-- Outcome of the chat-delivery collaborator during one `send_message`
call: both sends succeed, the first send raises, or the second raises. -/
inductive DeliveryOutcome where
  | ok
  | failFirst (err : String)
  | failSecond (err : String)
deriving DecidableEq, Repr

/-- `send_message` from the source: the duplicate-suppression gate
(`last_message == message and last_message_hw_id == current_hw_id`)
returns silently; otherwise the attention prefix and the message are sent
in order, success logs an info line and advances the state, and a raise
from either send is caught, logged at error level, and leaves the state
unchanged.  `Event.chatSend` records each call made to the collaborator,
raising or not. -/
def send_message (g : Globals) (chat : Option String) (message : String)
    (outcome : DeliveryOutcome) : Globals × List Event :=
  if g.last_message = some message ∧ g.last_message_hw_id = g.current_hw_id then
    (g, [])
  else
    match outcome with
    | .ok =>
      ({ g with last_message := some message, last_message_hw_id := g.current_hw_id },
       [Event.chatSend chat ATTENTION_MESSAGE, Event.chatSend chat message,
        Event.logInfo (MESSAGE_SENT_msg message)])
    | .failFirst err =>
      (g, [Event.chatSend chat ATTENTION_MESSAGE,
           Event.logError (MESSAGE_SENDING_FAILED_msg err)])
    | .failSecond err =>
      (g, [Event.chatSend chat ATTENTION_MESSAGE, Event.chatSend chat message,
           Event.logError (MESSAGE_SENDING_FAILED_msg err)])

/-- The state owned by `main`: the rolling timestamp cursor and the
mutable globals. -/
structure LoopState where
  timestamp : Json
  globals : Globals
deriving DecidableEq, Repr

/-- External inputs consumed by one cycle of the loop: the transport
outcome and the chat-delivery outcome. -/
structure CycleInput where
  http : HttpResult
  delivery : DeliveryOutcome
deriving DecidableEq, Repr

/-- Result of the `try` block of one cycle, up to the point where
`send_message` would run: a notification message, an empty homework list,
or a raised exception. -/
inductive AttemptOut where
  | notifyMsg (msg : String)
  | empty
  | failed (e : BotError)
deriving DecidableEq, Repr

/-- The `try` block of one cycle of `main`: API call, cursor advance via
`response.get('current_date', timestamp)`, `check_response`, the
`current_hw_id = homeworks[0].get('id')` assignment, and `parse_status`.
State updates made before a raise persist, as in the source. -/
def cycle_attempt (env : Env) (st : LoopState) (http : HttpResult) :
    LoopState × AttemptOut :=
  match get_api_answer env.practicum_token st.timestamp http with
  | .error e => (st, .failed e)
  | .ok body =>
    let ts := match JObj.lookup body "current_date" with
              | some v => v
              | none => st.timestamp
    let st1 : LoopState := { st with timestamp := ts }
    match check_response body with
    | .error e => (st1, .failed e)
    | .ok JList.nil => (st1, .empty)
    | .ok (JList.cons hw _) =>
      match pyGet hw "id" with
      | .error e => (st1, .failed e)
      | .ok idv =>
        let st2 : LoopState := { st1 with globals := { st1.globals with current_hw_id := idv } }
        match parse_status hw with
        | .error e => (st2, .failed e)
        | .ok msg => (st2, .notifyMsg msg)

/-- One full cycle of the `while True` loop in `main`: the `try` block,
the `except Exception` handler (error log plus best-effort notification
of the failure text), and the unconditional `finally: time.sleep`. -/
def main_cycle (env : Env) (st : LoopState) (inp : CycleInput) : LoopState × List Event :=
  match cycle_attempt env st inp.http with
  | (st1, .empty) => (st1, [Event.logDebug STATUSES_NOT_CHANGED, Event.sleep RETRY_TIME])
  | (st1, .notifyMsg msg) =>
    let r := send_message st1.globals env.my_chat_id msg inp.delivery
    ({ st1 with globals := r.1 }, r.2 ++ [Event.sleep RETRY_TIME])
  | (st1, .failed e) =>
    let m := ERROR_FOUND_msg (errText e)
    let r := send_message st1.globals env.my_chat_id m inp.delivery
    ({ st1 with globals := r.1 }, Event.logError m :: (r.2 ++ [Event.sleep RETRY_TIME]))

/-- The state `main` holds when entering the loop: `timestamp =
int(time.time())` and the three globals still `None`. -/
def initState (t0 : Int) : LoopState := ⟨Json.num t0, ⟨none, none, none⟩⟩

/-- A finite prefix of the infinite loop: folds `main_cycle` over a list
of per-cycle inputs, collecting each cycle's trace. -/
def runLoop (env : Env) : LoopState → List CycleInput → LoopState × List (List Event)
  | st, [] => (st, [])
  | st, inp :: rest =>
    let r := main_cycle env st inp
    let f := runLoop env r.1 rest
    (f.1, r.2 :: f.2)

/-- `main` from the source, observed on a finite prefix of cycles:
configuration failure raises `MissingVariableError(BOT_LAUNCH_STOPPED)`
before the loop; otherwise every supplied cycle runs. -/
def bot_main (env : Env) (t0 : Int) (inps : List CycleInput) :
    Except BotError (LoopState × List (List Event)) :=
  if (check_tokens env).1 then .ok (runLoop env (initState t0) inps)
  else .error (.missingVariable BOT_LAUNCH_STOPPED)

/-- Test for a delivery call among the observable events. -/
def isChatSend : Event → Bool
  | .chatSend _ _ => true
  | _ => false

/-- Number of calls made to the chat collaborator in a trace. -/
def countSends (evs : List Event) : Nat := (evs.filter isChatSend).length

/-- Modelled from the spec (for comparison with `check_tokens`): the
claim's reading of a valid configuration, in which every credential is a
present, non-empty string. -/
def credentialsNonEmpty (e : Env) : Bool :=
  (match e.practicum_token with | some s => s ≠ "" | none => false)
    && (match e.awesom_o_token with | some s => s ≠ "" | none => false)
    && (match e.my_chat_id with | some s => s ≠ "" | none => false)

/-- A fully populated environment, used by concrete witnesses. -/
def envAll : Env := ⟨some ("practicum"), some ("chat"), some ("awesom")⟩

/-- An environment whose credentials are all set to the empty string. -/
def envEmptyStr : Env := ⟨some (""), some (""), some ("")⟩

/-- An environment missing every credential. -/
def envMissing : Env := ⟨none, none, none⟩

/-- A 200 body carrying only an `error` key. -/
def bodyDenial : JObj := JObj.cons "error" (Json.str "bad_request") JObj.nil

/-- A 200 body carrying both an `error` key and a `code` key. -/
def bodyBoth : JObj :=
  JObj.cons "error" (Json.str "bad_request") (JObj.cons "code" (Json.num 7) JObj.nil)

/-- A body without a `homeworks` key. -/
def bodyNoHw : JObj := JObj.cons "current_date" (Json.num 9) JObj.nil

/-- A body whose `homeworks` value is not a list. -/
def bodyBadHw : JObj := JObj.cons "homeworks" (Json.str "not a list") JObj.nil

/-- A homework record with a known status and a name. -/
def hwApproved : Json :=
  Json.obj (JObj.cons "id" (Json.num 5)
    (JObj.cons "status" (Json.str "approved")
      (JObj.cons "homework_name" (Json.str "hw1") JObj.nil)))

/-- A homework record with an unrecognized status code. -/
def hwUnknown : Json :=
  Json.obj (JObj.cons "status" (Json.str "unknown_code") JObj.nil)

/-- A successful body whose `current_date` lies before the current cursor. -/
def bodyCursorBack : JObj :=
  JObj.cons "current_date" (Json.num 50) (JObj.cons "homeworks" (Json.arr JList.nil) JObj.nil)

/-- A successful body with no `current_date` key. -/
def bodyNoDate : JObj := JObj.cons "homeworks" (Json.arr JList.nil) JObj.nil

/-- A notifier state with a recorded current homework id and no delivery
history. -/
def g0 : Globals := ⟨some (Json.num 5), none, none⟩

/-- C2: `get_api_answer` classifies every transport outcome exactly as:
a transport-level failure raises `ConnectionError` (ServiceUnreachable)
carrying the underlying transport error and the request parameters and
never returns a body; a non-200 status raises `BadResponseError` carrying
the status code and request parameters; a 200 body containing an `error`
or `code` key raises `DenialOfServiceError` carrying the offending key,
its value, and the request parameters; otherwise the parsed body is
returned unchanged. -/
theorem get_api_answer_classification (token : Option String) (ts : Json)
    (err : String) (status : Nat) (body : JObj) :
    (get_api_answer token ts (.transportError err)
        = .error (.connectionError err (request_params token ts)))
    ∧ (status ≠ 200 → get_api_answer token ts (.response status body)
        = .error (.badResponse status (request_params token ts)))
    ∧ (∀ v, JObj.lookup body "error" = some v →
        get_api_answer token ts (.response 200 body)
          = .error (.denialOfService "error" v (request_params token ts)))
    ∧ (∀ v, JObj.lookup body "error" = none → JObj.lookup body "code" = some v →
        get_api_answer token ts (.response 200 body)
          = .error (.denialOfService "code" v (request_params token ts)))
    ∧ (JObj.lookup body "error" = none → JObj.lookup body "code" = none →
        get_api_answer token ts (.response 200 body) = .ok body) := by
  refine ⟨rfl, ?_, ?_, ?_, ?_⟩
  · intro h
    simp [get_api_answer, h]
  · intro v hv
    simp [get_api_answer, hv]
  · intro v he hc
    simp [get_api_answer, he, hc]
  · intro he hc
    simp [get_api_answer, he, hc]

/-- Witness for C2 at concrete inputs: a transport failure, a 404, a
denial body, and a clean body. -/
theorem get_api_answer_classification_witness :
    (get_api_answer (some ("t")) (Json.num 0) (.transportError ("down"))
        = .error (.connectionError ("down") (request_params (some ("t")) (Json.num 0))))
    ∧ (get_api_answer (some ("t")) (Json.num 0) (.response 404 JObj.nil)
        = .error (.badResponse 404 (request_params (some ("t")) (Json.num 0))))
    ∧ (get_api_answer (some ("t")) (Json.num 0) (.response 200 bodyDenial)
        = .error (.denialOfService "error" (Json.str "bad_request")
            (request_params (some ("t")) (Json.num 0))))
    ∧ (get_api_answer (some ("t")) (Json.num 0) (.response 200 JObj.nil) = .ok JObj.nil) :=
  ⟨(get_api_answer_classification (some ("t")) (Json.num 0) ("down") 404 JObj.nil).1,
   (get_api_answer_classification (some ("t")) (Json.num 0) ("down") 404 JObj.nil).2.1
     (by decide),
   (get_api_answer_classification (some ("t")) (Json.num 0) ("down") 404 bodyDenial).2.2.1
     (Json.str "bad_request") (by rfl),
   (get_api_answer_classification (some ("t")) (Json.num 0) ("down") 404 JObj.nil).2.2.2.2
     rfl rfl⟩

/-- C9: a 200 body containing both an `error` key and a `code` key is
reported as a denial naming the key `error`: the two keys are tested in
the fixed order `error` then `code` and only the first match is raised. -/
theorem denial_key_order (token : Option String) (ts : Json) (body : JObj)
    (v w : Json) (he : JObj.lookup body "error" = some v)
    (hc : JObj.lookup body "code" = some w) :
    get_api_answer token ts (.response 200 body)
      = .error (.denialOfService "error" v (request_params token ts)) := by
  simp [get_api_answer, he]

/-- Witness for C9: a body carrying `error` and `code` yields a denial
naming `error`. -/
theorem denial_key_order_witness :
    get_api_answer (some ("t")) (Json.num 0) (.response 200 bodyBoth)
      = .error (.denialOfService "error" (Json.str "bad_request")
          (request_params (some ("t")) (Json.num 0))) :=
  denial_key_order (some ("t")) (Json.num 0) bodyBoth
    (Json.str "bad_request") (Json.num 7) rfl rfl

/-- C4: `check_response` raises `KeyError` (MissingField) when the
`homeworks` key is absent, raises `TypeError` (InvalidShape) when it is
present but not a list, and otherwise returns the list exactly as found,
with no element-level validation. -/
theorem check_response_classification (body : JObj) :
    (JObj.lookup body "homeworks" = none →
        check_response body = .error (.keyError MISSING_REQUIRED_KEY))
    ∧ (∀ j, JObj.lookup body "homeworks" = some j → (∀ xs, j ≠ Json.arr xs) →
        check_response body = .error (.typeError INVALID_DATA_TYPE))
    ∧ (∀ xs, JObj.lookup body "homeworks" = some (Json.arr xs) →
        check_response body = .ok xs) := by
  refine ⟨?_, ?_, ?_⟩
  · intro h
    simp [check_response, h]
  · intro j hj hne
    cases j with
    | arr xs => exact absurd rfl (hne xs)
    | null => simp [check_response, hj]
    | bool b => simp [check_response, hj]
    | num n => simp [check_response, hj]
    | str s => simp [check_response, hj]
    | obj kvs => simp [check_response, hj]
  · intro xs h
    simp [check_response, h]

/-- Witness for C4: a body without `homeworks`, a body whose `homeworks`
is a string, and a body whose `homeworks` is a (junk-element) list. -/
theorem check_response_classification_witness :
    (check_response bodyNoHw = .error (.keyError MISSING_REQUIRED_KEY))
    ∧ (check_response bodyBadHw = .error (.typeError INVALID_DATA_TYPE))
    ∧ (check_response bodyNoDate = .ok JList.nil) :=
  ⟨(check_response_classification bodyNoHw).1 rfl,
   (check_response_classification bodyBadHw).2.1 (Json.str "not a list") rfl
     (by intro xs h; cases h),
   (check_response_classification bodyNoDate).2.2 JList.nil rfl⟩

/-- C5: for a homework record whose `status` is one of the three known
codes, `parse_status` returns the fixed-template string built from the
record's homework name and the static verdict sentence mapped to that
status; for a record whose `status` is any other value, it raises
`ValueError` (UnknownStatus) naming the unrecognized code. -/
theorem parse_status_classification (kvs : JObj) (status : Json)
    (hst : JObj.lookup kvs "status" = some status) :
    (∀ s verdict name, status = Json.str s → lookupS VERDICTS s = some verdict →
        JObj.lookup kvs "homework_name" = some name →
        parse_status (Json.obj kvs) = .ok (STATUS_CHANGED_msg (jsonText name) verdict))
    ∧ (verdictOf status = none →
        parse_status (Json.obj kvs) = .error (.valueError status)) := by
  constructor
  · intro s verdict name hs hv hn
    subst hs
    simp [parse_status, pyGetItem, hst, hn, verdictOf, hv]
  · intro h
    simp [parse_status, pyGetItem, hst, h]

/-- Witness for C5: an `approved` record produces the template message
with its name and the approved verdict text; an `unknown_code` record
raises `ValueError` naming it. -/
theorem parse_status_classification_witness :
    (parse_status hwApproved
        = .ok (STATUS_CHANGED_msg "hw1" "Работа проверена: ревьюеру всё понравилось. Ура!"))
    ∧ (parse_status hwUnknown = .error (.valueError (Json.str "unknown_code"))) :=
  ⟨(parse_status_classification
      (JObj.cons "id" (Json.num 5)
        (JObj.cons "status" (Json.str "approved")
          (JObj.cons "homework_name" (Json.str "hw1") JObj.nil)))
      (Json.str "approved") rfl).1
      "approved" "Работа проверена: ревьюеру всё понравилось. Ура!" (Json.str "hw1")
      rfl rfl rfl,
   (parse_status_classification (JObj.cons "status" (Json.str "unknown_code") JObj.nil)
      (Json.str "unknown_code") rfl).2 rfl⟩

/-- C7 (amended): `check_tokens` returns true if and only if all three
credential values are present (set to some string — the source tests
`is None`, so an empty string counts as present); for every non-empty
subset of absent credentials it returns false and emits a single
critical-level log line naming exactly that subset, in the fixed order
API token, bot token, chat id. -/
theorem check_tokens_spec (e : Env) :
    ((check_tokens e).1 = true
        ↔ (e.practicum_token ≠ none ∧ e.awesom_o_token ≠ none ∧ e.my_chat_id ≠ none))
    ∧ (missedVariables e
        = (if e.practicum_token = none then ["PRACTICUM_TOKEN"] else [])
          ++ (if e.awesom_o_token = none then ["AWESOM_O_TOKEN"] else [])
          ++ (if e.my_chat_id = none then ["MY_CHAT_ID"] else []))
    ∧ (missedVariables e ≠ [] →
        (check_tokens e).1 = false
        ∧ (check_tokens e).2 = [Event.logCritical (MISSED_VARIABLES_msg (missedVariables e))]) := by
  obtain ⟨p, c, a⟩ := e
  cases p <;> cases c <;> cases a <;>
    simp [check_tokens, missedVariables, VARIABLE_NAMES, Env.getVar, MISSED_VARIABLES_msg]

/-- Witness for C7 (amended): a fully populated environment passes, and
an environment missing all three credentials fails with one critical line
naming all three in order. -/
theorem check_tokens_spec_witness :
    ((check_tokens envAll).1 = true)
    ∧ ((check_tokens envMissing).1 = false)
    ∧ ((check_tokens envMissing).2
        = [Event.logCritical
            (MISSED_VARIABLES_msg ["PRACTICUM_TOKEN", "AWESOM_O_TOKEN", "MY_CHAT_ID"])]) :=
  ⟨(check_tokens_spec envAll).1.mpr (by decide),
   ((check_tokens_spec envMissing).2.2 (by decide)).1,
   ((check_tokens_spec envMissing).2.2 (by decide)).2⟩

/-- Counterexample to C7 as stated: with all three credentials set to the
empty string, `check_tokens` returns true even though no credential is a
non-empty string — the source tests presence (`is None`), not
non-emptiness. -/
theorem check_tokens_claim_counterexample :
    (check_tokens envEmptyStr).1 = true ∧ credentialsNonEmpty envEmptyStr = false :=
  ⟨by rfl, by rfl⟩

/-- C3: the notifier is idempotent under identical (message, id): when
the message equals the last successfully delivered one and the current
homework id equals the id recorded at that delivery, `send_message`
makes no delivery calls and leaves the state unchanged; a fresh message
delivered twice in a row yields exactly one pair of chat sends (the
second call is suppressed), while changing the message (same id) or the
id (same message) yields a second delivery of two sends. -/
theorem notify_idempotent (g : Globals) (chat : Option String) (m m2 : String)
    (idv : Option Json) :
    (∀ o, g.last_message = some m → g.last_message_hw_id = g.current_hw_id →
        send_message g chat m o = (g, []))
    ∧ (¬(g.last_message = some m ∧ g.last_message_hw_id = g.current_hw_id) →
        countSends (send_message g chat m .ok).2 = 2
        ∧ (∀ o, send_message ((send_message g chat m .ok).1) chat m o
            = ((send_message g chat m .ok).1, []))
        ∧ (m2 ≠ m → countSends (send_message ((send_message g chat m .ok).1) chat m2 .ok).2 = 2)
        ∧ (idv ≠ g.current_hw_id →
            countSends
              (send_message
                { (send_message g chat m .ok).1 with current_hw_id := idv } chat m .ok).2
              = 2)) := by
  constructor
  · intro o hm hid
    simp [send_message, hm, hid]
  · intro hgate
    rw [send_message, if_neg hgate]
    refine ⟨rfl, ?_, ?_, ?_⟩
    · intro o
      simp [send_message]
    · intro hne
      rw [send_message, if_neg]
      · rfl
      · intro hcl
        have h1 : some m = some m2 := hcl.1
        exact hne (Option.some.inj h1).symm
    · intro hne
      rw [send_message, if_neg]
      · rfl
      · intro hcl
        have h2 : g.current_hw_id = idv := hcl.2
        exact hne h2.symm

/-- Witness for C3: starting from a fresh state with current homework id
5, the first delivery makes two sends, an identical repeat makes none,
and a changed message or a changed id each make two more sends. -/
theorem notify_idempotent_witness :
    (countSends (send_message g0 (some ("chat")) "msg" .ok).2 = 2)
    ∧ (send_message ((send_message g0 (some ("chat")) "msg" .ok).1) (some ("chat")) "msg" .ok
        = ((send_message g0 (some ("chat")) "msg" .ok).1, []))
    ∧ (countSends
        (send_message ((send_message g0 (some ("chat")) "msg" .ok).1) (some ("chat")) "msg2" .ok).2
        = 2)
    ∧ (countSends
        (send_message
          { (send_message g0 (some ("chat")) "msg" .ok).1 with current_hw_id := some (Json.num 6) }
          (some ("chat")) "msg" .ok).2
        = 2) := by
  have h := (notify_idempotent g0 (some ("chat")) "msg" "msg2" (some (Json.num 6))).2
    (by decide)
  exact ⟨h.1, h.2.1 .ok, h.2.2.1 (by decide), h.2.2.2 (by decide)⟩

/-- C6: when the chat collaborator raises during a non-suppressed notify
(on either of the two sequential sends), `send_message` returns with the
notification state exactly as before the call and a single error-level
log line, and — the state being unchanged — the next attempt at the same
(message, id) is not suppressed and performs both sends. -/
theorem notify_failure_preserves_state (g : Globals) (chat : Option String) (m err : String)
    (hgate : ¬(g.last_message = some m ∧ g.last_message_hw_id = g.current_hw_id)) :
    (send_message g chat m (.failFirst err)
        = (g, [Event.chatSend chat ATTENTION_MESSAGE,
               Event.logError (MESSAGE_SENDING_FAILED_msg err)]))
    ∧ (send_message g chat m (.failSecond err)
        = (g, [Event.chatSend chat ATTENTION_MESSAGE, Event.chatSend chat m,
               Event.logError (MESSAGE_SENDING_FAILED_msg err)]))
    ∧ (countSends (send_message g chat m .ok).2 = 2) := by
  rw [send_message, if_neg hgate, send_message, if_neg hgate, send_message, if_neg hgate]
  exact ⟨rfl, rfl, rfl⟩

/-- Witness for C6: a failed delivery from a fresh state leaves the state
untouched, logs the error, and the identical retry then makes both sends. -/
theorem notify_failure_preserves_state_witness :
    (send_message g0 (some ("chat")) "msg" (.failFirst "boom")
        = (g0, [Event.chatSend (some ("chat")) ATTENTION_MESSAGE,
                Event.logError (MESSAGE_SENDING_FAILED_msg "boom")]))
    ∧ (send_message g0 (some ("chat")) "msg" (.failSecond "boom")
        = (g0, [Event.chatSend (some ("chat")) ATTENTION_MESSAGE,
                Event.chatSend (some ("chat")) "msg",
                Event.logError (MESSAGE_SENDING_FAILED_msg "boom")]))
    ∧ (countSends (send_message g0 (some ("chat")) "msg" .ok).2 = 2) :=
  notify_failure_preserves_state g0 (some ("chat")) "msg" "boom" (by decide)

/-- Helper: the `try` block of a cycle never touches the delivery history
(`last_message`, `last_message_hw_id`); only `send_message` advances it. -/
theorem cycle_attempt_preserves (env : Env) (st : LoopState) (http : HttpResult) :
    ((cycle_attempt env st http).1).globals.last_message = st.globals.last_message
    ∧ ((cycle_attempt env st http).1).globals.last_message_hw_id
        = st.globals.last_message_hw_id := by
  unfold cycle_attempt
  cases get_api_answer env.practicum_token st.timestamp http with
  | error e => exact ⟨rfl, rfl⟩
  | ok body =>
    dsimp only
    cases check_response body with
    | error e => exact ⟨rfl, rfl⟩
    | ok xs =>
      cases xs with
      | nil => exact ⟨rfl, rfl⟩
      | cons hw tl =>
        dsimp only
        cases pyGet hw "id" with
        | error e => exact ⟨rfl, rfl⟩
        | ok idv =>
          dsimp only
          cases parse_status hw with
          | error e => exact ⟨rfl, rfl⟩
          | ok msg => exact ⟨rfl, rfl⟩

/-- Helper: the exact shape of a cycle whose `try` block raised — the
error is logged, the same text is offered to `send_message`, and the
sleep closes the trace. -/
theorem main_cycle_failed (env : Env) (st : LoopState) (inp : CycleInput)
    (st1 : LoopState) (e : BotError)
    (h : cycle_attempt env st inp.http = (st1, .failed e)) :
    main_cycle env st inp
      = ({ st1 with
            globals := (send_message st1.globals env.my_chat_id
              (ERROR_FOUND_msg (errText e)) inp.delivery).1 },
         Event.logError (ERROR_FOUND_msg (errText e))
           :: ((send_message st1.globals env.my_chat_id
                 (ERROR_FOUND_msg (errText e)) inp.delivery).2
               ++ [Event.sleep RETRY_TIME])) := by
  unfold main_cycle
  rw [h]

/-- Helper: after a successful (or suppressed) delivery, the state records
the message and the current homework id, which itself is unchanged. -/
theorem send_ok_state (g : Globals) (c : Option String) (m : String) :
    ((send_message g c m .ok).1).last_message = some m
    ∧ ((send_message g c m .ok).1).last_message_hw_id = g.current_hw_id
    ∧ ((send_message g c m .ok).1).current_hw_id = g.current_hw_id := by
  unfold send_message
  split
  · next h => exact ⟨h.1, h.2, rfl⟩
  · exact ⟨rfl, rfl, rfl⟩

/-- Helper: every supplied cycle input produces exactly one cycle trace. -/
theorem runLoop_length (env : Env) (inps : List CycleInput) :
    ∀ st : LoopState, ((runLoop env st inps).2).length = inps.length := by
  induction inps with
  | nil => intro st; rfl
  | cons i rest ih => intro st; simp [runLoop, ih]

/-- Helper: every cycle's trace — success, empty list, or raise — ends
with the fixed 600-second sleep. -/
theorem main_cycle_ends_sleep (env : Env) (st : LoopState) (inp : CycleInput) :
    ∃ pre, (main_cycle env st inp).2 = pre ++ [Event.sleep 600] := by
  unfold main_cycle
  rcases hca : cycle_attempt env st inp.http with ⟨st1, out⟩
  cases out with
  | notifyMsg msg =>
    dsimp only
    exact ⟨(send_message st1.globals env.my_chat_id msg inp.delivery).2, rfl⟩
  | empty =>
    exact ⟨[Event.logDebug STATUSES_NOT_CHANGED], rfl⟩
  | failed e =>
    dsimp only
    refine ⟨Event.logError (ERROR_FOUND_msg (errText e))
      :: (send_message st1.globals env.my_chat_id
            (ERROR_FOUND_msg (errText e)) inp.delivery).2, ?_⟩
    simp [RETRY_TIME]

/-- C10: the duplicate-suppression gate also covers failure
notifications: when a cycle's `try` block raises and the failure text is
delivered, and the next cycle raises with the same failure text while the
current homework id is unchanged, the second cycle makes no delivery
calls at all. -/
theorem duplicate_failure_suppressed (env : Env) (st : LoopState) (inp1 inp2 : CycleInput)
    (st1 st2 : LoopState) (e1 e2 : BotError)
    (h1 : cycle_attempt env st inp1.http = (st1, .failed e1))
    (hok : inp1.delivery = .ok)
    (h2 : cycle_attempt env ((main_cycle env st inp1).1) inp2.http = (st2, .failed e2))
    (htxt : errText e2 = errText e1)
    (hid : st2.globals.current_hw_id = st1.globals.current_hw_id) :
    countSends ((main_cycle env ((main_cycle env st inp1).1) inp2).2) = 0 := by
  have hmc1 := main_cycle_failed env st inp1 st1 e1 h1
  rw [hok] at hmc1
  have hg : ((main_cycle env st inp1).1).globals
      = (send_message st1.globals env.my_chat_id
          (ERROR_FOUND_msg (errText e1)) DeliveryOutcome.ok).1 := by
    rw [hmc1]
  have hs := send_ok_state st1.globals env.my_chat_id (ERROR_FOUND_msg (errText e1))
  have hpres := cycle_attempt_preserves env ((main_cycle env st inp1).1) inp2.http
  rw [h2] at hpres
  have hgate : st2.globals.last_message = some (ERROR_FOUND_msg (errText e2))
      ∧ st2.globals.last_message_hw_id = st2.globals.current_hw_id := by
    constructor
    · calc st2.globals.last_message
          = ((main_cycle env st inp1).1).globals.last_message := hpres.1
        _ = some (ERROR_FOUND_msg (errText e1)) := by rw [hg]; exact hs.1
        _ = some (ERROR_FOUND_msg (errText e2)) := by rw [htxt]
    · calc st2.globals.last_message_hw_id
          = ((main_cycle env st inp1).1).globals.last_message_hw_id := hpres.2
        _ = st1.globals.current_hw_id := by rw [hg]; exact hs.2.1
        _ = st2.globals.current_hw_id := hid.symm
  have hsupp : send_message st2.globals env.my_chat_id
      (ERROR_FOUND_msg (errText e2)) inp2.delivery = (st2.globals, []) := by
    rw [send_message.eq_def, if_pos hgate]
  rw [main_cycle_failed env ((main_cycle env st inp1).1) inp2 st2 e2 h2]
  dsimp only
  rw [hsupp]
  rfl

/-- Witness for C10: two consecutive cycles failing on the same transport
error — the second cycle's trace contains no chat sends. -/
theorem duplicate_failure_suppressed_witness :
    countSends ((main_cycle envAll
      ((main_cycle envAll (initState 0) ⟨.transportError ("down"), .ok⟩).1)
      ⟨.transportError ("down"), .ok⟩).2) = 0 :=
  duplicate_failure_suppressed envAll (initState 0)
    ⟨.transportError ("down"), .ok⟩ ⟨.transportError ("down"), .ok⟩
    (initState 0) ((main_cycle envAll (initState 0) ⟨.transportError ("down"), .ok⟩).1)
    (.connectionError ("down") (request_params (some ("practicum")) (Json.num 0)))
    (.connectionError ("down") (request_params (some ("practicum")) (Json.num 0)))
    rfl rfl rfl rfl rfl

/-- C8 (amended): in every cycle whose API call succeeds, the cursor
becomes the body's `current_date` value when that key is present and is
held unchanged otherwise.  The cursor simply adopts the server-reported
value, so it is not guaranteed to be non-decreasing (see the
counterexample). -/
theorem cursor_advance (env : Env) (st : LoopState) (http : HttpResult) (body : JObj)
    (h : get_api_answer env.practicum_token st.timestamp http = .ok body) :
    (∀ v, JObj.lookup body "current_date" = some v →
        ((cycle_attempt env st http).1).timestamp = v)
    ∧ (JObj.lookup body "current_date" = none →
        ((cycle_attempt env st http).1).timestamp = st.timestamp) := by
  unfold cycle_attempt
  rw [h]
  dsimp only
  constructor
  · intro v hv
    rw [hv]
    dsimp only
    cases check_response body with
    | error e => rfl
    | ok xs =>
      cases xs with
      | nil => rfl
      | cons hw tl =>
        dsimp only
        cases pyGet hw "id" with
        | error e => rfl
        | ok idv =>
          dsimp only
          cases parse_status hw with
          | error e => rfl
          | ok msg => rfl
  · intro hv
    rw [hv]
    dsimp only
    cases check_response body with
    | error e => rfl
    | ok xs =>
      cases xs with
      | nil => rfl
      | cons hw tl =>
        dsimp only
        cases pyGet hw "id" with
        | error e => rfl
        | ok idv =>
          dsimp only
          cases parse_status hw with
          | error e => rfl
          | ok msg => rfl

/-- Witness for C8 (amended): a body with `current_date = 50` moves the
cursor to 50, and a body without the key keeps the cursor at 100. -/
theorem cursor_advance_witness :
    ((cycle_attempt envAll (initState 100) (.response 200 bodyCursorBack)).1).timestamp
        = Json.num 50
    ∧ ((cycle_attempt envAll (initState 100) (.response 200 bodyNoDate)).1).timestamp
        = Json.num 100 :=
  ⟨(cursor_advance envAll (initState 100) (.response 200 bodyCursorBack) bodyCursorBack
      rfl).1 (Json.num 50) rfl,
   (cursor_advance envAll (initState 100) (.response 200 bodyNoDate) bodyNoDate
      rfl).2 rfl⟩

/-- Counterexample to C8 as stated: the cursor is not monotone.  With the
cursor at 100, a successful API call whose body reports `current_date =
50` moves the cursor back to 50 — the code adopts whatever the server
reports, so across a run the cursor can decrease. -/
theorem cursor_monotonicity_counterexample :
    get_api_answer envAll.practicum_token (Json.num 100) (.response 200 bodyCursorBack)
        = .ok bodyCursorBack
    ∧ ((cycle_attempt envAll (initState 100) (.response 200 bodyCursorBack)).1).timestamp
        = Json.num 50
    ∧ ((50 : Int) < 100) :=
  ⟨rfl, rfl, by decide⟩

/-- C1: the poll loop never terminates on a cycle-level failure.  The
process refuses to start (raising `MissingVariableError`) exactly when
configuration validation fails; otherwise every supplied cycle input is
consumed and produces a trace.  Every cycle — succeeding or raising —
ends with the fixed 600-second sleep, and a cycle whose `try` block
raises logs the failure at error level and then offers the same failure
text to the notifier (whose own failures never escape it). -/
theorem loop_never_exits (env : Env) (t0 : Int) (inps : List CycleInput)
    (st : LoopState) (inp : CycleInput) (st1 : LoopState) (e : BotError) :
    ((check_tokens env).1 = false →
        bot_main env t0 inps = .error (.missingVariable BOT_LAUNCH_STOPPED))
    ∧ ((check_tokens env).1 = true →
        bot_main env t0 inps = .ok (runLoop env (initState t0) inps)
          ∧ ((runLoop env (initState t0) inps).2).length = inps.length)
    ∧ (∃ pre, (main_cycle env st inp).2 = pre ++ [Event.sleep 600])
    ∧ (cycle_attempt env st inp.http = (st1, .failed e) →
        (main_cycle env st inp).2
          = Event.logError (ERROR_FOUND_msg (errText e))
              :: ((send_message st1.globals env.my_chat_id
                    (ERROR_FOUND_msg (errText e)) inp.delivery).2
                  ++ [Event.sleep 600])) := by
  refine ⟨?_, ?_, main_cycle_ends_sleep env st inp, ?_⟩
  · intro h
    simp [bot_main, h]
  · intro h
    exact ⟨by simp [bot_main, h], runLoop_length env inps (initState t0)⟩
  · intro h
    rw [main_cycle_failed env st inp st1 e h]
    rfl

/-- Witness for C1: a credential-less environment aborts with
`MissingVariableError` before the loop; a populated one enters the loop;
and a concrete transport-failure cycle is logged, notified, and closed
by the 600-second sleep. -/
theorem loop_never_exits_witness :
    (bot_main envMissing 0 [] = .error (.missingVariable BOT_LAUNCH_STOPPED))
    ∧ (bot_main envAll 0 [] = .ok (runLoop envAll (initState 0) []))
    ∧ (∃ pre, (main_cycle envAll (initState 0) ⟨.transportError ("down"), .ok⟩).2
        = pre ++ [Event.sleep 600])
    ∧ ((main_cycle envAll (initState 0) ⟨.transportError ("down"), .ok⟩).2
        = Event.logError (ERROR_FOUND_msg (errText
              (.connectionError ("down") (request_params (some ("practicum")) (Json.num 0)))))
            :: ((send_message (initState 0).globals envAll.my_chat_id
                  (ERROR_FOUND_msg (errText
                    (.connectionError ("down") (request_params (some ("practicum")) (Json.num 0)))))
                  DeliveryOutcome.ok).2
                ++ [Event.sleep 600])) :=
  ⟨(loop_never_exits envMissing 0 [] (initState 0) ⟨.transportError ("down"), .ok⟩
      (initState 0) (.missingVariable BOT_LAUNCH_STOPPED)).1 rfl,
   ((loop_never_exits envAll 0 [] (initState 0) ⟨.transportError ("down"), .ok⟩
      (initState 0) (.missingVariable BOT_LAUNCH_STOPPED)).2.1 rfl).1,
   (loop_never_exits envAll 0 [] (initState 0) ⟨.transportError ("down"), .ok⟩
      (initState 0) (.missingVariable BOT_LAUNCH_STOPPED)).2.2.1,
   (loop_never_exits envAll 0 [] (initState 0) ⟨.transportError ("down"), .ok⟩
      (initState 0)
      (.connectionError ("down") (request_params (some ("practicum")) (Json.num 0)))).2.2.2
      rfl⟩
